import Mathlib

/-!
Shallow embedding of the raws-mcp weather server core
(`src/utils/units.js`, `src/utils/calculations.js`, `src/utils/weather.js`,
`src/api/cache.js` / `mesowest.js` Cache, the client-manager failover
coordinator, and `src/schemas/transformer.js` with its zod output schema),
together with theorems settling the frozen specification claims.

Conventions of the embedding:
* JavaScript numbers carrying weather data are modelled as `ℚ`
  (transcendental index formulas use `ℝ`); nullable values are `Option`.
* `Math.round x` is `⌊x + 1/2⌋` (JS rounds half toward +∞),
  `Math.trunc`-style `%` keeps the dividend's sign.
* Timestamps (`Date.now()`, ISO strings) are modelled as rational
  milliseconds since the epoch, passed explicitly as a `now` parameter.
-/

namespace RawsMcp

/-- JS `Math.round` on rationals: floor of `x + 1/2`. -/
def jsRound (x : ℚ) : ℤ := ⌊x + 1/2⌋

/-- JS `Math.round` on reals (used after transcendental index formulas). -/
noncomputable def jsRoundR (x : ℝ) : ℤ := ⌊x + 1/2⌋

/-- Truncation toward zero, the rounding used by the JS `%` operator. -/
def jsTrunc (q : ℚ) : ℤ := if 0 ≤ q then ⌊q⌋ else ⌈q⌉

/-- JS remainder `a % b`: same sign as the dividend. -/
def jsMod (a b : ℚ) : ℚ := a - b * jsTrunc (a / b)

/-- The `round(value, decimals)` helper of `src/utils/units.js`:
`Math.round(value * 10^d) / 10^d`. -/
def roundTo (value : ℚ) (decimals : ℕ) : ℚ :=
  (jsRound (value * 10 ^ decimals) : ℚ) / 10 ^ decimals

/-- The 16 compass labels of `degreesToCardinal`, in source order. -/
def directions : List String :=
  ["N", "NNE", "NE", "ENE",
   "E", "ESE", "SE", "SSE",
   "S", "SSW", "SW", "WSW",
   "W", "WNW", "NW", "NNW"]

/-- `degreesToCardinal` from `src/utils/units.js`.  A `null` input yields
`"Unknown"`; otherwise the input is normalized into `[0, 360)` with the JS
`%` operator and mapped through
`Math.round((degrees + 11.25) / 22.5) % 16`.  (The `NaN` guard of the
source has no counterpart on `ℚ`.) -/
def degreesToCardinal : Option ℚ → String
  | none => "Unknown"
  | some degrees0 =>
    let d0 := jsMod degrees0 360
    let degrees := if d0 < 0 then d0 + 360 else d0
    let index := jsRound ((degrees + 11.25) / 22.5) % 16
    directions.getD index.toNat "Unknown"

/-- `isRedFlagConditions` from `src/utils/calculations.js`.  Strict mode is
`rh < 15 ∧ wind > 25`; relaxed mode (the source's default) adds
`rh < 20 ∧ wind > 20`; null inputs give `false`. -/
def isRedFlagConditions (relativeHumidity windSpeed : Option ℚ) (strict : Bool) : Bool :=
  match relativeHumidity, windSpeed with
  | some h, some w =>
    if strict then decide (h < 15 ∧ w > 25)
    else decide ((h < 15 ∧ w > 25) ∨ (h < 20 ∧ w > 20))
  | _, _ => false

/-- `calculateHainesIndex` from `src/utils/calculations.js`: a surface-based
approximation summing a temperature band (1–3) and a humidity band (1–3).
The `elevation` parameter is accepted (as in the source) but never read. -/
def calculateHainesIndex (temperature relativeHumidity : Option ℚ)
    (elevation : Option ℚ) : Option ℤ :=
  match temperature, relativeHumidity with
  | some t, some rh =>
    let stabilityComponent : ℤ := if t ≥ 90 then 3 else if t ≥ 75 then 2 else 1
    let moistureComponent : ℤ := if rh ≤ 20 then 3 else if rh ≤ 40 then 2 else 1
    some (stabilityComponent + moistureComponent)
  | _, _ => none

/-- `calculateEquilibriumMoistureContent` from `src/utils/calculations.js`
(NFDRS empirical formula; outside the `rh/100 ∈ [0.1, 1]` band it returns 0). -/
noncomputable def calculateEquilibriumMoistureContent
    (temperature relativeHumidity : ℝ) : ℝ :=
  let rh := relativeHumidity / 100
  if 0.1 ≤ rh ∧ rh ≤ 1.0 then
    0.942 * rh ^ (0.679 : ℝ) +
      ((0.000499 * Real.exp (0.1 * rh)) +
        0.18 * (21.1 - temperature) * (1 - Real.exp (-0.115 * rh)))
  else 0

/-- `calculateFosbergFFWI` from `src/utils/calculations.js`: null if any
input is null; humidity clamped to `[1, 100]` and wind to `≥ 0`; the damping
coefficient `eta` is branch-selected on `emc ≤ 10`; result is
`Math.round(eta * sqrt(1 + wind²))`. -/
noncomputable def calculateFosbergFFWI
    (temperature relativeHumidity windSpeed : Option ℚ) : Option ℤ :=
  match temperature, relativeHumidity, windSpeed with
  | some t0, some rh0, some w0 =>
    let rh : ℚ := max 1 (min 100 rh0)
    let w : ℚ := max 0 w0
    let t : ℝ := (t0 : ℝ)
    let emc := calculateEquilibriumMoistureContent t (rh : ℝ)
    let eta : ℝ :=
      if emc ≤ 10 then 0.03229 + 0.281073 * emc - 0.000578 * emc * t
      else 2.22749 + 0.160107 * emc - 0.01478 * t
    some (jsRoundR (eta * Real.sqrt (1 + (w : ℝ) * (w : ℝ))))
  | _, _, _ => none

/-- `calculateChandlerBurningIndex` from `src/utils/calculations.js`: null if
temperature or humidity is null; the EMC estimate substitutes for a missing
fuel moisture; result is `Math.max(0, Math.round(cbi))`. -/
noncomputable def calculateChandlerBurningIndex
    (temperature relativeHumidity fuelMoisture : Option ℚ) : Option ℤ :=
  match temperature, relativeHumidity with
  | some t, some rh =>
    let fm : ℝ :=
      match fuelMoisture with
      | some f => (f : ℝ)
      | none => calculateEquilibriumMoistureContent (t : ℝ) (rh : ℝ)
    let term1 : ℝ := (110 - 1.373 * (rh : ℝ)) - 0.54 * (10.20 - ((t : ℝ) - 32) * 5 / 9)
    let term2 : ℝ := 124 * (10 : ℝ) ^ (-0.0142 * fm)
    some (max 0 (jsRoundR (term1 * term2 / 60)))
  | _, _ => none

/-- JS numeric truthiness for a nullable number: non-null and non-zero. -/
def truthyNum : Option ℚ → Bool
  | none => false
  | some q => decide (q ≠ 0)

/-- The Chandler-value banding at the tail of `calculateFireDangerClass`
(source lines 216–226): thresholds 90 / 75 / 50 / 25. -/
def chandlerBand (cbi : Option ℤ) : String :=
  -- JS comparisons read a null index as 0, landing in the `Low` branch
  let c : ℤ := cbi.getD 0
  if c ≥ 90 then "Extreme"
  else if c ≥ 75 then "Very High"
  else if c ≥ 50 then "High"
  else if c ≥ 25 then "Moderate"
  else "Low"

/-- `calculateFireDangerClass` from `src/utils/calculations.js`, on the
domain this codebase invokes it with (temperature, humidity and wind speed
validated non-null by the callers; fuel moisture nullable).  The source also
computes a Fosberg value here but never uses it for the classification.
Overrides: `rh < 10`, truthy fuel moisture `< 5`, or `isRedFlagConditions`
in its relaxed default mode; otherwise the Chandler banding decides. -/
noncomputable def calculateFireDangerClass
    (temperature relativeHumidity windSpeed : ℚ) (fuelMoisture : Option ℚ) : String :=
  let cbi := calculateChandlerBurningIndex (some temperature) (some relativeHumidity) fuelMoisture
  if relativeHumidity < 10 ∨ (truthyNum fuelMoisture ∧ fuelMoisture.getD 0 < 5) then "Extreme"
  else if isRedFlagConditions (some relativeHumidity) (some windSpeed) false then "Extreme"
  else chandlerBand cbi

/-- Truthiness test `p > 0` for a nullable number (JS `precipAccum > 0` is
false when the value is null). -/
def jsPos : Option ℚ → Bool
  | none => false
  | some p => decide (0 < p)

/-- `estimateProbabilityOfRain` from `src/utils/weather.js`: humidity bands
plus recent-precipitation bumps, a freezing-temperature discount, capped at
100. -/
def estimateProbabilityOfRain (relativeHumidity recentPrecip : ℚ)
    (temperature : Option ℚ) : ℚ :=
  let p1 : ℚ :=
    if relativeHumidity ≥ 90 then 60
    else if relativeHumidity ≥ 80 then 40
    else if relativeHumidity ≥ 70 then 20
    else if relativeHumidity ≥ 60 then 10
    else 0
  let p2 : ℚ := p1 + (if recentPrecip > 0.1 then 20 else if recentPrecip > 0.01 then 10 else 0)
  let p3 : ℚ :=
    match temperature with
    | some t => if t < 32 then max 0 (p2 - 10) else p2
    | none => p2
  min 100 p3

/-- `estimateWindGust` from `src/utils/weather.js`: 0 for null or zero wind,
otherwise `Math.round(windSpeed * 1.5)`. -/
def estimateWindGust : Option ℚ → ℚ
  | none => 0
  | some w => if w = 0 then 0 else (jsRound (w * 1.5) : ℚ)

/-- One record of the historical series handed to `detectExtremeChanges`
(the fields that function reads; timestamps in epoch milliseconds). -/
structure HistObs where
  timestamp : ℚ
  temperature : ℚ
  humidity : ℚ
  windSpeed : ℚ

/-- One entry of the transformer's `extreme_changes` list.  The source emits
two distinct record shapes: `detectExtremeChanges` builds
`type/value/time/description` objects, while the current-snapshot checks in
`transformExtremeChanges` build `parameter/change/magnitude/time_frame`
objects (the shape `wildfire-schema.js` expects). -/
inductive ExtremeChangeEntry
  | hist (type_ : String) (value : ℚ) (time : ℚ) (descr : String)
  | snap (parameter : String) (change : String) (magnitude : String) (time_frame : String)
deriving DecidableEq

/-- Stable insertion of one record into a time-sorted list (later-arriving
records land after records with equal timestamps). -/
def insertByTime (a : HistObs) : List HistObs → List HistObs
  | [] => [a]
  | b :: rest =>
    if b.timestamp ≤ a.timestamp then b :: insertByTime a rest
    else a :: b :: rest

/-- Stable sort by timestamp, modelling the source's
`[...timeSeries].sort((a, b) => new Date(a.timestamp) - new Date(b.timestamp))`
(JS `Array.sort` is stable). -/
def sortByTime (l : List HistObs) : List HistObs :=
  l.foldl (fun acc a => insertByTime a acc) []

/-- The body of the scanning loop of `detectExtremeChanges` for one
consecutive pair: inside a `(0, 3]`-hour gap it flags a wind-speed increase
above 15 mph, a humidity drop above 20 points, and a temperature spike above
20 °F, in that order. -/
def pairChanges (current next : HistObs) : List ExtremeChangeEntry :=
  let timeDiff := (next.timestamp - current.timestamp) / 3600000
  if timeDiff ≤ 3 ∧ timeDiff > 0 then
    (if next.windSpeed - current.windSpeed > 15 then
      [.hist "wind_increase" (next.windSpeed - current.windSpeed) next.timestamp
        ("Wind increased by " ++ toString (jsRound (next.windSpeed - current.windSpeed)) ++
          " mph in " ++ toString (jsRound (timeDiff * 60)) ++ " minutes")]
     else []) ++
    (if current.humidity - next.humidity > 20 then
      [.hist "humidity_drop" (current.humidity - next.humidity) next.timestamp
        ("Humidity dropped " ++ toString (jsRound (current.humidity - next.humidity)) ++
          "% in " ++ toString (jsRound (timeDiff * 60)) ++ " minutes")]
     else []) ++
    (if next.temperature - current.temperature > 20 then
      [.hist "temperature_spike" (next.temperature - current.temperature) next.timestamp
        ("Temperature increased " ++ toString (jsRound (next.temperature - current.temperature)) ++
          " F in " ++ toString (jsRound (timeDiff * 60)) ++ " minutes")]
     else [])
  else []

/-- Scan of all consecutive pairs of the sorted series, head first. -/
def scanPairs : List HistObs → List ExtremeChangeEntry
  | a :: b :: rest => pairChanges a b ++ scanPairs (b :: rest)
  | _ => []

/-- `detectExtremeChanges` from `src/utils/weather.js`. -/
def detectExtremeChanges (timeSeries : List HistObs) : List ExtremeChangeEntry :=
  if timeSeries.length < 2 then []
  else scanPairs (sortByTime timeSeries)

/-- One NWS alert record as consumed by `transformRedFlagWarnings`
(times as epoch milliseconds; `descr` is the alert's `description`). -/
structure NwsAlert where
  event : String
  onset : Option ℚ
  expires : Option ℚ
  headline : Option String
  descr : Option String

/-- One entry of `red_flag_warnings`.  The zod schema requires a string
`description`; the source's `alert.headline || alert.description` can leave
it absent, hence the `Option`. -/
structure RedFlagWarning where
  start_time : ℚ
  end_time : ℚ
  level : String
  descr : Option String
deriving DecidableEq

/-- The alert-translation step of `transformRedFlagWarnings` (source lines
170–179): a "Red Flag Warning" or "Fire Weather Watch" event becomes an
entry with the provider's own onset/expiry times (defaulting to `now` and
`now + 6 h`), the matching tier, and `headline || description`. -/
def translateAlert (now : ℚ) (a : NwsAlert) : Option RedFlagWarning :=
  if a.event = "Red Flag Warning" ∨ a.event = "Fire Weather Watch" then
    some
      { start_time := a.onset.getD now
      , end_time := a.expires.getD (now + 6 * 3600 * 1000)
      , level := if a.event = "Red Flag Warning" then "Red Flag" else "Watch"
      , descr := a.headline <|> a.descr }
  else none

/-- `transformRedFlagWarnings` from `src/schemas/transformer.js`: matching
NWS alerts are translated directly; only when that yields nothing does the
threshold detection run — `isRedFlagConditions` in relaxed default mode on
`max(windSpeed, windGust || 0)` for the "Red Flag" tier, else
`humidity < 25 ∧ windSpeed > 15` for the "Watch" tier, both with the
`(now, now + 6 h)` window. -/
def transformRedFlagWarnings (relativeHumidity windSpeed : ℚ)
    (windGust : Option ℚ) (nwsAlerts : List NwsAlert) (now : ℚ) : List RedFlagWarning :=
  let warnings := nwsAlerts.filterMap (translateAlert now)
  if warnings.length = 0 then
    if isRedFlagConditions (some relativeHumidity)
        (some (max windSpeed (windGust.getD 0))) false then
      [{ start_time := now
       , end_time := now + 6 * 3600 * 1000
       , level := "Red Flag"
       , descr := some ("Critical fire weather: Low humidity (" ++
           toString (jsRound relativeHumidity) ++ "%) and high winds (" ++
           toString (jsRound windSpeed) ++ " mph" ++
           (if truthyNum windGust then
             ", gusts to " ++ toString (jsRound (windGust.getD 0)) ++ " mph"
            else "") ++ ")") }]
    else if relativeHumidity < 25 ∧ windSpeed > 15 then
      [{ start_time := now
       , end_time := now + 6 * 3600 * 1000
       , level := "Watch"
       , descr := some ("Elevated fire weather: Humidity " ++
           toString (jsRound relativeHumidity) ++ "%, winds " ++
           toString (jsRound windSpeed) ++ " mph") }]
    else []
  else warnings

/-- `transformExtremeChanges` from `src/schemas/transformer.js`: historical
detections first (when a series was supplied), then the unconditional
current-snapshot checks — truthy gust above 40 mph, humidity below 10 %,
present fuel moisture below 8 %. -/
def transformExtremeChanges (relativeHumidity : ℚ)
    (windGust fuelMoisture : Option ℚ) (historicalData : List HistObs) :
    List ExtremeChangeEntry :=
  let detected := if historicalData.length > 0 then detectExtremeChanges historicalData else []
  let gustNote :=
    if truthyNum windGust ∧ windGust.getD 0 > 40 then
      [ExtremeChangeEntry.snap "wind" "gusts up to"
        (toString (jsRound (windGust.getD 0)) ++ " mph") "current"]
    else []
  let humidityNote :=
    if relativeHumidity < 10 then
      [ExtremeChangeEntry.snap "humidity" "critically low at"
        (toString (jsRound relativeHumidity) ++ "%") "current"]
    else []
  let fuelNote :=
    match fuelMoisture with
    | some f =>
      if f < 8 then
        [ExtremeChangeEntry.snap "fuel_moisture" "very dry fuels at"
          (toString (roundTo f 1) ++ "%") "current"]
      else []
    | none => []
  detected ++ gustNote ++ humidityNote ++ fuelNote

/-- The canonical observation record handed to the transformer (the fields
`transformToWildfireSchema` reads; timestamps as epoch milliseconds). -/
structure Observation where
  stationId : String
  stationName : Option String
  state : Option String
  timestamp : Option ℚ
  temperature : Option ℚ
  relativeHumidity : Option ℚ
  windSpeed : Option ℚ
  windGust : Option ℚ
  windDirection : Option ℚ
  precipAccum : Option ℚ
  fuelMoisture : Option ℚ
  source : Option String

/-- Output substructure `weather_risks.temperature`. -/
structure TempOut where
  value : ℚ
  units : String
deriving DecidableEq

/-- Output substructure `weather_risks.humidity`. -/
structure HumidityOut where
  percent : ℚ
deriving DecidableEq

/-- Output substructure `weather_risks.wind`. -/
structure WindOut where
  speed : ℚ
  gusts : ℚ
  direction : String
deriving DecidableEq

/-- Output substructure `weather_risks.probability_of_rain`. -/
structure RainOut where
  percent : ℚ
  time_window : String
  confidence : String
deriving DecidableEq

/-- One `data_sources` entry. -/
structure DataSource where
  name : String
  type_ : String
  url : Option String
deriving DecidableEq

/-- The `weather_risks` block of the wildfire document. -/
structure WeatherRisks where
  temperature : TempOut
  humidity : HumidityOut
  wind : WindOut
  probability_of_rain : RainOut
  red_flag_warnings : List RedFlagWarning
  extreme_changes : List ExtremeChangeEntry
deriving DecidableEq

/-- The externally visible wildfire document built by the transformer
(`as_of` as epoch milliseconds). -/
structure WildfireDoc where
  location : String
  as_of : ℚ
  weather_risks : WeatherRisks
  data_sources : List DataSource
  notes : String
deriving DecidableEq

/-- Validation outcome of `wildfire-schema.js` for one `extreme_changes`
entry: zod requires the `parameter/change/magnitude/time_frame` keys, which
the `type/value/time/description` records of `detectExtremeChanges` lack. -/
def zodExtremeEntryOk : ExtremeChangeEntry → Bool
  | .snap _ _ _ _ => true
  | .hist _ _ _ _ => false

/-- Validation of one `red_flag_warnings` entry: the level must be one of
the three enum values and the description must be a present string. -/
def zodWarningOk (w : RedFlagWarning) : Bool :=
  decide (w.level = "Watch" ∨ w.level = "Red Flag" ∨ w.level = "Extreme") && w.descr.isSome

/-- `wildfireSchema.parse` from `src/schemas/wildfire-schema.js`: the range,
enum and required-key constraints the zod schema imposes on the document
(violations raise, modelled as `Except.error`). -/
def wildfireSchemaParse (w : WildfireDoc) : Except String WildfireDoc :=
  if ¬ (w.weather_risks.temperature.units = "F" ∨ w.weather_risks.temperature.units = "C") then
    .error "temperature.units: invalid enum value"
  else if ¬ (0 ≤ w.weather_risks.humidity.percent ∧ w.weather_risks.humidity.percent ≤ 100) then
    .error "humidity.percent: out of range"
  else if ¬ (0 ≤ w.weather_risks.wind.speed) then
    .error "wind.speed: must be nonnegative"
  else if ¬ (0 ≤ w.weather_risks.wind.gusts) then
    .error "wind.gusts: must be nonnegative"
  else if ¬ (0 ≤ w.weather_risks.probability_of_rain.percent ∧
             w.weather_risks.probability_of_rain.percent ≤ 100) then
    .error "probability_of_rain.percent: out of range"
  else if ¬ (w.weather_risks.probability_of_rain.confidence = "high" ∨
             w.weather_risks.probability_of_rain.confidence = "medium" ∨
             w.weather_risks.probability_of_rain.confidence = "low") then
    .error "probability_of_rain.confidence: invalid enum value"
  else if ¬ (w.weather_risks.red_flag_warnings.all zodWarningOk) then
    .error "red_flag_warnings: invalid entry"
  else if ¬ (w.weather_risks.extreme_changes.all zodExtremeEntryOk) then
    .error "extreme_changes: Required"
  else .ok w

/-- Failure modes of `transformToWildfireSchema`: the precondition throw of
`validateRequiredFields`, or a zod validation throw. -/
inductive TransformError
  | missingRequired (fields : List String)
  | schemaValidation (msg : String)
deriving DecidableEq

/-- `validateRequiredFields` from `src/schemas/transformer.js`: collects the
null ones among temperature, humidity and wind speed; any hit throws. -/
def validateRequiredFields (o : Observation) : Option (List String) :=
  let missing :=
    (if o.temperature.isNone then ["temperature"] else []) ++
    (if o.relativeHumidity.isNone then ["relativeHumidity"] else []) ++
    (if o.windSpeed.isNone then ["windSpeed"] else [])
  if missing.isEmpty then none else some missing

/-- `buildLocationString`: `stationName || stationId`, with a present state
appended. -/
def buildLocationString (o : Observation) : String :=
  let location := o.stationName.getD o.stationId
  match o.state with
  | some s => location ++ ", " ++ s
  | none => location

/-- `transformTemperature`: value rounded to integer, Fahrenheit. -/
def transformTemperature (temperature : ℚ) : TempOut :=
  { value := roundTo temperature 0, units := "F" }

/-- `transformHumidity`: percent rounded to integer. -/
def transformHumidity (humidity : ℚ) : HumidityOut :=
  { percent := roundTo humidity 0 }

/-- `transformWind`: rounded speed; reported gust rounded, otherwise the
1.5× estimate; direction label or `"Unknown"`. -/
def transformWind (windSpeed : ℚ) (windGust windDirection : Option ℚ) : WindOut :=
  { speed := roundTo windSpeed 0
  , gusts :=
      match windGust with
      | some g => roundTo g 0
      | none => estimateWindGust (some windSpeed)
  , direction :=
      match windDirection with
      | some d => degreesToCardinal (some d)
      | none => "Unknown" }

/-- `transformRainProbability`: heuristic percentage from humidity and
recent precipitation; confidence `"medium"` only with nonzero recent
precipitation. -/
def transformRainProbability (relativeHumidity : ℚ) (precipAccum : Option ℚ)
    (temperature : ℚ) : RainOut :=
  { percent := estimateProbabilityOfRain relativeHumidity (precipAccum.getD 0) (some temperature)
  , time_window := "next 24h"
  , confidence := if jsPos precipAccum then "medium" else "low" }

/-- `buildDataSources`: a synthesized station entry plus a static entry for
the serving provider when recognized. -/
def buildDataSources (o : Observation) : List DataSource :=
  [{ name := o.stationName.getD "null" ++ " RAWS (" ++ o.stationId ++ ")"
   , type_ := "weather"
   , url := some ("https://raws.dri.edu/" ++ o.stationId) }] ++
  (match o.source with
   | some "synoptic" =>
     [{ name := "Synoptic Data API", type_ := "weather", url := some "https://synopticdata.com/" }]
   | some "mesowest" =>
     [{ name := "MesoWest API", type_ := "weather", url := some "https://mesowest.utah.edu/" }]
   | _ => [])

/-- `buildNotes`: the note sentences in source order.  Numeric
interpolations of the source (precipitation amount, fuel-moisture values —
the latter via the transcendental EMC estimate) are abbreviated out of the
text; no claim depends on them. -/
def buildNotes (o : Observation) (nwsAlerts : List NwsAlert)
    (historicalData : List HistObs) : String :=
  let n1 := ["Real-time observations from RAWS station."]
  let n2 :=
    if nwsAlerts.length > 0 then ["Red Flag warnings from National Weather Service."]
    else if isRedFlagConditions o.relativeHumidity o.windSpeed false then
      ["Red Flag conditions detected based on humidity and wind thresholds."]
    else []
  let n3 :=
    if jsPos o.precipAccum then ["Recent precipitation reported."]
    else ["Precipitation probability estimated from current conditions (no forecast available from RAWS)."]
  let n4 :=
    if historicalData.length > 0 then ["Extreme weather changes analyzed from recent observations."]
    else []
  let n5 :=
    match o.fuelMoisture with
    | some _ => ["10-hour fuel moisture reported."]
    | none => ["Estimated 10-hour fuel moisture (calculated from temperature and humidity)."]
  String.intercalate " " (n1 ++ n2 ++ n3 ++ n4 ++ n5)

/-- `transformToWildfireSchema` from `src/schemas/transformer.js`: the
required-field precondition, then the document assembly, then the zod
parse; either throw is surfaced as the corresponding error. -/
def transformToWildfireSchema (o : Observation) (nwsAlerts : List NwsAlert)
    (historicalData : List HistObs) (now : ℚ) : Except TransformError WildfireDoc :=
  match validateRequiredFields o with
  | some missing => .error (.missingRequired missing)
  | none =>
    let t := o.temperature.getD 0
    let rh := o.relativeHumidity.getD 0
    let ws := o.windSpeed.getD 0
    let wildfire : WildfireDoc :=
      { location := buildLocationString o
      , as_of := o.timestamp.getD now
      , weather_risks :=
        { temperature := transformTemperature t
        , humidity := transformHumidity rh
        , wind := transformWind ws o.windGust o.windDirection
        , probability_of_rain := transformRainProbability rh o.precipAccum t
        , red_flag_warnings := transformRedFlagWarnings rh ws o.windGust nwsAlerts now
        , extreme_changes := transformExtremeChanges rh o.windGust o.fuelMoisture historicalData }
      , data_sources := buildDataSources o
      , notes := buildNotes o nwsAlerts historicalData }
    match wildfireSchemaParse wildfire with
    | .ok v => .ok v
    | .error m => .error (.schemaValidation m)

/-- One stored cache entry (times as epoch milliseconds), after the `Cache`
class of the api layer. -/
structure CacheEntry (α : Type) where
  value : α
  createdAt : ℚ
  lastAccessed : ℚ
  expiresAt : ℚ
  hits : ℕ
deriving DecidableEq

/-- The in-memory TTL cache: the backing JS `Map` in insertion order, the
configured maximum size and default TTL. -/
structure Cache (α : Type) where
  store : List (String × CacheEntry α)
  maxSize : ℕ
  defaultTTL : ℚ
deriving DecidableEq

/-- JS `Map.prototype.get`: the entry stored under a key (first occurrence;
a well-formed map has at most one). -/
def mapGet {α : Type} (store : List (String × CacheEntry α)) (k : String) :
    Option (CacheEntry α) :=
  (store.find? (fun p => p.1 == k)).map Prod.snd

/-- JS `Map.prototype.set`: update in place when the key exists (keeping its
position, as JS maps do), otherwise append. -/
def mapSet {α : Type} : List (String × CacheEntry α) → String → CacheEntry α →
    List (String × CacheEntry α)
  | [], k, e => [(k, e)]
  | p :: rest, k, e => if p.1 == k then (k, e) :: rest else p :: mapSet rest k e

/-- JS `Map.prototype.delete`: remove the entry stored under a key. -/
def mapDelete {α : Type} : List (String × CacheEntry α) → String →
    List (String × CacheEntry α)
  | [], _ => []
  | p :: rest, k => if p.1 == k then rest else p :: mapDelete rest k

/-- The scanning loop of `Cache._evictLRU`: the first entry (in map
iteration order) whose `lastAccessed` is strictly below every earlier
candidate — i.e. the first entry attaining the minimum. -/
def lruPick {α : Type} : List (String × CacheEntry α) → Option (String × CacheEntry α)
  | [] => none
  | p :: rest =>
    match lruPick rest with
    | none => some p
    | some q => if q.2.lastAccessed < p.2.lastAccessed then some q else some p

/-- `Cache._evictLRU`: delete the least-recently-accessed entry.  The
source's `if (oldestKey)` guard is string truthiness, so an entry keyed by
the empty string is never deleted. -/
def evictLRU {α : Type} (store : List (String × CacheEntry α)) :
    List (String × CacheEntry α) :=
  match lruPick store with
  | some p => if p.1 = "" then store else mapDelete store p.1
  | none => store

/-- JS `ttl || defaultTTL`: a null or zero TTL falls back to the default. -/
def jsOrTTL (ttl : Option ℚ) (d : ℚ) : ℚ :=
  match ttl with
  | some t => if t = 0 then d else t
  | none => d

/-- `Cache.get`: a miss returns null; an entry with `now > expiresAt` is
deleted and reported as a miss; otherwise the hit bumps the counter and the
last-access time and returns the value. -/
def Cache.get {α : Type} (c : Cache α) (now : ℚ) (k : String) : Option α × Cache α :=
  match mapGet c.store k with
  | none => (none, c)
  | some e =>
    if now > e.expiresAt then (none, { c with store := mapDelete c.store k })
    else
      (some e.value,
       { c with store := mapSet c.store k { e with hits := e.hits + 1, lastAccessed := now } })

/-- `Cache.has`: like `get` but only reports presence (also deleting an
expired entry). -/
def Cache.has {α : Type} (c : Cache α) (now : ℚ) (k : String) : Bool × Cache α :=
  match mapGet c.store k with
  | none => (false, c)
  | some e =>
    if now > e.expiresAt then (false, { c with store := mapDelete c.store k })
    else (true, c)

/-- `Cache.set`: evict the LRU entry when the store is at capacity and the
key is not already present (raw `Map.has`, ignoring expiry), then store a
fresh entry expiring at `now + (ttl || defaultTTL)`. -/
def Cache.set {α : Type} (c : Cache α) (now : ℚ) (k : String) (v : α)
    (ttl : Option ℚ) : Cache α :=
  let store1 :=
    if decide (c.maxSize ≤ c.store.length) && (mapGet c.store k).isNone then evictLRU c.store
    else c.store
  let e : CacheEntry α :=
    { value := v, createdAt := now, lastAccessed := now
    , expiresAt := now + jsOrTTL ttl c.defaultTTL, hits := 0 }
  { c with store := mapSet store1 k e }

/-- One upstream client as the coordinator sees it: a provider name and its
`getCurrentObservation` behaviour for each station id. -/
structure Provider (α : Type) where
  name : String
  fetch : String → Except String α

/-- The result record the coordinator returns: the provider payload spread
together with the `_meta` tag (`source`, `cached: false`, timestamp). -/
structure TaggedResult (α : Type) where
  data : α
  source : String
  cached : Bool
  fetchedAt : ℚ
deriving DecidableEq

/-- The provider loop of `ClientManager.getCurrentObservation`: try each
available client in order, remembering the last error; the first success
stops the loop; if all fail the last failure (or a generic error when no
client was configured) is thrown.  The second component logs the providers
asked, in order. -/
def tryProviders {α : Type} (sid : String) :
    List (Provider α) → Option String → Except String (α × String) × List String
  | [], lastError => (.error (lastError.getD "All data sources failed"), [])
  | p :: ps, lastError =>
    match p.fetch sid with
    | .ok d => (.ok (d, p.name), [p.name])
    | .error e =>
      let r := tryProviders sid ps (some e)
      (r.1, p.name :: r.2)

/-- `ClientManager.getCurrentObservation`: answer from a live cache entry if
one exists; otherwise run the provider loop, tag and cache a success under a
5-minute TTL.  Besides the result and the updated cache, the embedding
returns the log of providers actually asked. -/
def getCurrentObservation {α : Type} (availableClients : List (Provider α))
    (c : Cache (TaggedResult α)) (now : ℚ) (stationId : String) :
    Except String (TaggedResult α) × Cache (TaggedResult α) × List String :=
  let cacheKey := "current:" ++ stationId
  match Cache.get c now cacheKey with
  | (some v, c1) => (.ok v, c1, [])
  | (none, c1) =>
    match tryProviders stationId availableClients none with
    | (.ok (d, nm), log) =>
      let result : TaggedResult α := { data := d, source := nm, cached := false, fetchedAt := now }
      (.ok result, Cache.set c1 now cacheKey result (some 300000), log)
    | (.error e, log) => (.error e, c1, log)

/-! Theorems settling the specification claims. -/

/-- C10: `calculateHainesIndex` is independent of its elevation argument —
the tool interface documents elevation as used for the Haines Index, but the
result depends only on the temperature and humidity bands. -/
theorem calculateHainesIndex_elevation_independent
    (t rh : Option ℚ) (e1 e2 : Option ℚ) :
    calculateHainesIndex t rh e1 = calculateHainesIndex t rh e2 := rfl

/-- C6: evaluation of `degreesToCardinal` at the claimed anchor points.  The
claim (like the repository's own unit tests) expects `0° ↦ "N"`,
`360° ↦ "N"` and `45° ↦ "NE"`, but `Math.round((degrees + 11.25)/22.5)`
shifts every sector by one label: the code maps `0°` and `360°` to `"NNE"`
and `45°` to `"ENE"`.  Only the null case agrees with the claim. -/
theorem degreesToCardinal_shifted_by_one_sector :
    degreesToCardinal (some 0) = "NNE" ∧
    degreesToCardinal (some 360) = "NNE" ∧
    degreesToCardinal (some 45) = "ENE" ∧
    degreesToCardinal none = "Unknown" := by
  refine ⟨?_, ?_, ?_, rfl⟩ <;>
    · simp only [degreesToCardinal, jsMod, jsTrunc, jsRound, directions]
      norm_num
      all_goals rfl

lemma validateRequiredFields_eq_none_iff (o : Observation) :
    validateRequiredFields o = none ↔
      (o.temperature ≠ none ∧ o.relativeHumidity ≠ none ∧ o.windSpeed ≠ none) := by
  cases ht : o.temperature <;> cases hr : o.relativeHumidity <;> cases hw : o.windSpeed <;>
    simp [validateRequiredFields, ht, hr, hw]

/-- C7: the transformer fails with a `MissingRequiredField` error exactly
when temperature, humidity or wind speed is null in the input observation;
with all three present no such precondition error is raised (the only other
failure mode is a schema-validation error). -/
theorem transformToWildfireSchema_missingRequired_iff
    (o : Observation) (alerts : List NwsAlert) (hist : List HistObs) (now : ℚ) :
    (∃ fs, transformToWildfireSchema o alerts hist now =
        .error (.missingRequired fs)) ↔
      (o.temperature = none ∨ o.relativeHumidity = none ∨ o.windSpeed = none) := by
  constructor
  · rintro ⟨fs, h⟩
    by_contra hc
    push_neg at hc
    have hv : validateRequiredFields o = none :=
      (validateRequiredFields_eq_none_iff o).mpr ⟨hc.1, hc.2.1, hc.2.2⟩
    rw [transformToWildfireSchema, hv] at h
    simp only at h
    cases hp : wildfireSchemaParse _ <;> rw [hp] at h <;> simp at h
  · intro h
    cases hv : validateRequiredFields o with
    | none =>
      exact absurd h (by
        have := (validateRequiredFields_eq_none_iff o).mp hv
        push_neg
        exact this)
    | some m =>
      refine ⟨m, ?_⟩
      rw [transformToWildfireSchema, hv]

/-- C1 counterexample: at humidity 18 %, wind 22 mph, no gust and no alerts,
the code emits exactly one `"Red Flag"`-tier entry (the relaxed trigger
`rh < 20 ∧ wind > 20` of `isRedFlagConditions`' default mode fires), while
the claimed strict condition `rh < 15 ∧ max(wind, gust) > 25` is false — so
the claim's "Red Flag iff strict condition / else Watch" biconditional
fails at this input. -/
theorem transformRedFlagWarnings_c1_counterexample :
    ((transformRedFlagWarnings 18 22 none [] 0).map RedFlagWarning.level =
       ["Red Flag"]) ∧
    ¬ ((18 : ℚ) < 15 ∧ max (22 : ℚ) 0 > 25) ∧ ((18 : ℚ) < 25 ∧ (22 : ℚ) > 15) := by
  refine ⟨?_, by norm_num, by norm_num⟩
  simp only [transformRedFlagWarnings, translateAlert, isRedFlagConditions, truthyNum,
    List.filterMap_nil, List.length_nil, Option.getD]
  norm_num

lemma isRedFlagConditions_relaxed_eq (h w : ℚ) :
    isRedFlagConditions (some h) (some w) false =
      decide ((h < 15 ∧ w > 25) ∨ (h < 20 ∧ w > 20)) := rfl

lemma filterMap_translateAlert_eq_nil (now : ℚ) (alerts : List NwsAlert)
    (h : ∀ a ∈ alerts, a.event ≠ "Red Flag Warning" ∧ a.event ≠ "Fire Weather Watch") :
    alerts.filterMap (translateAlert now) = [] := by
  rw [List.filterMap_eq_nil_iff]
  intro a ha
  have ha' := h a ha
  rw [translateAlert, if_neg]
  rintro (h1 | h2)
  exacts [ha'.1 h1, ha'.2 h2]

lemma filterMap_translateAlert_ne_nil (now : ℚ) (alerts : List NwsAlert)
    (h : ∃ a ∈ alerts, a.event = "Red Flag Warning" ∨ a.event = "Fire Weather Watch") :
    alerts.filterMap (translateAlert now) ≠ [] := by
  obtain ⟨a, ha, hev⟩ := h
  intro hnil
  rw [List.filterMap_eq_nil_iff] at hnil
  have := hnil a ha
  rw [translateAlert, if_pos hev] at this
  exact Option.some_ne_none _ this

/-- C1 (amended): with no "Red Flag Warning"/"Fire Weather Watch" event
among the supplied alerts, the transformer's `red_flag_warnings` list holds
exactly one `"Red Flag"`-tier entry iff the *relaxed* red-flag test
`(rh < 15 ∧ M > 25) ∨ (rh < 20 ∧ M > 20)` holds for `M = max(wind speed,
gust or 0)`; otherwise exactly one `"Watch"`-tier entry iff
`rh < 25 ∧ wind speed > 15`; otherwise it is empty.  When such an alert
event is supplied, the alerts are translated directly and threshold
detection is suppressed. -/
theorem transformRedFlagWarnings_spec
    (rh ws : ℚ) (g : Option ℚ) (alerts : List NwsAlert) (now : ℚ) :
    ((∀ a ∈ alerts, a.event ≠ "Red Flag Warning" ∧ a.event ≠ "Fire Weather Watch") →
       (((rh < 15 ∧ max ws (g.getD 0) > 25) ∨ (rh < 20 ∧ max ws (g.getD 0) > 20) →
          (transformRedFlagWarnings rh ws g alerts now).map RedFlagWarning.level =
            ["Red Flag"]) ∧
        (¬((rh < 15 ∧ max ws (g.getD 0) > 25) ∨ (rh < 20 ∧ max ws (g.getD 0) > 20)) →
          (rh < 25 ∧ ws > 15) →
          (transformRedFlagWarnings rh ws g alerts now).map RedFlagWarning.level =
            ["Watch"]) ∧
        (¬((rh < 15 ∧ max ws (g.getD 0) > 25) ∨ (rh < 20 ∧ max ws (g.getD 0) > 20)) →
          ¬(rh < 25 ∧ ws > 15) →
          transformRedFlagWarnings rh ws g alerts now = []))) ∧
    ((∃ a ∈ alerts, a.event = "Red Flag Warning" ∨ a.event = "Fire Weather Watch") →
       transformRedFlagWarnings rh ws g alerts now =
         alerts.filterMap (translateAlert now)) := by
  constructor
  · intro hno
    have hnil := filterMap_translateAlert_eq_nil now alerts hno
    refine ⟨?_, ?_, ?_⟩
    · intro hrf
      have hb : isRedFlagConditions (some rh) (some (max ws (g.getD 0))) false = true := by
        rw [isRedFlagConditions_relaxed_eq, decide_eq_true_eq]
        exact hrf
      simp only [transformRedFlagWarnings, hnil, List.length_nil, hb]
      simp
    · intro hrf hw
      have hb : isRedFlagConditions (some rh) (some (max ws (g.getD 0))) false = false := by
        rw [isRedFlagConditions_relaxed_eq, decide_eq_false_iff_not]
        exact hrf
      simp only [transformRedFlagWarnings, hnil, List.length_nil, hb, if_true,
        Bool.false_eq_true, if_false]
      rw [if_pos hw]
      simp
    · intro hrf hw
      have hb : isRedFlagConditions (some rh) (some (max ws (g.getD 0))) false = false := by
        rw [isRedFlagConditions_relaxed_eq, decide_eq_false_iff_not]
        exact hrf
      simp only [transformRedFlagWarnings, hnil, List.length_nil, hb, if_true,
        Bool.false_eq_true, if_false]
      rw [if_neg hw]
  · intro hex
    have hne := filterMap_translateAlert_ne_nil now alerts hex
    rw [transformRedFlagWarnings]
    rw [if_neg (by simpa [List.length_eq_zero] using hne)]

/-- C1 witness: humidity 10 %, wind 30 mph, no gust, no alerts — the relaxed
(and strict) trigger fires and the list is exactly one "Red Flag" entry. -/
theorem transformRedFlagWarnings_spec_witness :
    (transformRedFlagWarnings 10 30 none [] 0).map RedFlagWarning.level =
      ["Red Flag"] :=
  ((transformRedFlagWarnings_spec 10 30 none [] 0).1 (by simp)).1
    (by norm_num)

/-- A benign observation (all required fields present, all optional fields
absent) used to exercise the historical extreme-change path. -/
def obsC2 : Observation :=
  { stationId := "TEST1", stationName := none, state := none, timestamp := none
  , temperature := some 70, relativeHumidity := some 50, windSpeed := some 5
  , windGust := none, windDirection := none, precipAccum := none
  , fuelMoisture := none, source := none }

/-- Two observations one hour apart with a 20 mph wind-speed increase: a
pair `detectExtremeChanges` must flag. -/
def histC2 : List HistObs :=
  [{ timestamp := 0, temperature := 70, humidity := 50, windSpeed := 5 },
   { timestamp := 3600000, temperature := 70, humidity := 50, windSpeed := 25 }]

/-- C2: at an input whose historical series contains a flaggable wind
increase (5 → 25 mph within one hour), the transformer does not return a
document at all — the `type/value/time/description` record emitted by
`detectExtremeChanges` lacks the `parameter/change/magnitude/time_frame`
keys the zod schema requires for `extreme_changes` entries, so
`wildfireSchema.parse` throws.  The claim (and the spec) instead promise a
returned document containing the wind-increase entry. -/
theorem transformToWildfireSchema_historical_change_throws :
    transformToWildfireSchema obsC2 [] histC2 0 =
      .error (.schemaValidation "extreme_changes: Required") := by
  simp only [transformToWildfireSchema, obsC2, histC2, validateRequiredFields,
    wildfireSchemaParse, buildLocationString, transformTemperature, transformHumidity,
    transformWind, transformRainProbability, buildDataSources, buildNotes,
    transformRedFlagWarnings, transformExtremeChanges, detectExtremeChanges,
    sortByTime, insertByTime, scanPairs, pairChanges, translateAlert,
    estimateProbabilityOfRain, estimateWindGust, jsPos, truthyNum, roundTo, jsRound,
    isRedFlagConditions, zodExtremeEntryOk, zodWarningOk, degreesToCardinal]
  norm_num
  rfl

lemma mapGet_eq_none_iff {α : Type} (store : List (String × CacheEntry α)) (k : String) :
    mapGet store k = none ↔ ∀ p ∈ store, p.1 ≠ k := by
  simp [mapGet, List.find?_eq_none]

lemma mapGet_cons {α : Type} (p : String × CacheEntry α)
    (rest : List (String × CacheEntry α)) (k : String) :
    mapGet (p :: rest) k = if p.1 == k then some p.2 else mapGet rest k := by
  cases hpk : p.1 == k <;> simp [mapGet, List.find?_cons, hpk]

lemma mapGet_ne_none_of_mem {α : Type} {store : List (String × CacheEntry α)}
    {p : String × CacheEntry α} (h : p ∈ store) : mapGet store p.1 ≠ none := by
  intro hn
  rw [mapGet_eq_none_iff] at hn
  exact hn p h rfl

lemma mem_of_mem_mapDelete {α : Type} {store : List (String × CacheEntry α)}
    {k : String} {p : String × CacheEntry α} (h : p ∈ mapDelete store k) : p ∈ store := by
  induction store with
  | nil => simpa [mapDelete] using h
  | cons q rest ih =>
    rw [mapDelete] at h
    by_cases hqk : q.1 == k
    · rw [if_pos hqk] at h
      exact List.mem_cons_of_mem q h
    · rw [if_neg hqk] at h
      rcases List.mem_cons.mp h with h1 | h2
      · exact h1 ▸ List.mem_cons_self q rest
      · exact List.mem_cons_of_mem q (ih h2)

lemma mapGet_mapDelete_none {α : Type} {store : List (String × CacheEntry α)}
    {k : String} (k' : String) (h : mapGet store k = none) :
    mapGet (mapDelete store k') k = none := by
  rw [mapGet_eq_none_iff] at h ⊢
  exact fun p hp => h p (mem_of_mem_mapDelete hp)

lemma length_mapDelete {α : Type} (store : List (String × CacheEntry α)) (k : String)
    (h : mapGet store k ≠ none) : (mapDelete store k).length + 1 = store.length := by
  induction store with
  | nil => simp [mapGet] at h
  | cons q rest ih =>
    rw [mapGet_cons] at h
    rw [mapDelete]
    by_cases hqk : q.1 == k
    · rw [if_pos hqk]
      simp
    · rw [if_neg hqk]
      rw [if_neg hqk] at h
      simp only [List.length_cons]
      rw [ih h]

lemma length_mapSet_of_none {α : Type} (store : List (String × CacheEntry α))
    (k : String) (e : CacheEntry α) (h : mapGet store k = none) :
    (mapSet store k e).length = store.length + 1 := by
  induction store with
  | nil => simp [mapSet]
  | cons q rest ih =>
    rw [mapGet_cons] at h
    rw [mapSet]
    by_cases hqk : q.1 == k
    · rw [if_pos hqk] at h
      exact absurd h (Option.some_ne_none _)
    · rw [if_neg hqk] at h
      rw [if_neg hqk]
      simp only [List.length_cons, ih h]

lemma length_mapSet_of_some {α : Type} (store : List (String × CacheEntry α))
    (k : String) (e : CacheEntry α) (h : mapGet store k ≠ none) :
    (mapSet store k e).length = store.length := by
  induction store with
  | nil => simp [mapGet] at h
  | cons q rest ih =>
    rw [mapGet_cons] at h
    rw [mapSet]
    by_cases hqk : q.1 == k
    · rw [if_pos hqk]
      simp
    · rw [if_neg hqk]
      rw [if_neg hqk] at h
      simp only [List.length_cons, ih h]

lemma lruPick_spec {α : Type} (store : List (String × CacheEntry α)) (h : store ≠ []) :
    ∃ p, lruPick store = some p ∧ p ∈ store ∧
      ∀ q ∈ store, p.2.lastAccessed ≤ q.2.lastAccessed := by
  induction store with
  | nil => exact absurd rfl h
  | cons a rest ih =>
    by_cases hrest : rest = []
    · subst hrest
      refine ⟨a, rfl, List.mem_cons_self a [], ?_⟩
      intro q hq
      rcases List.mem_cons.mp hq with h1 | h2
      · rw [h1]
      · simp at h2
    · obtain ⟨p, hp, hmem, hmin⟩ := ih hrest
      by_cases hlt : p.2.lastAccessed < a.2.lastAccessed
      · refine ⟨p, ?_, List.mem_cons_of_mem a hmem, ?_⟩
        · simp only [lruPick, hp]
          rw [if_pos hlt]
        · intro q hq
          rcases List.mem_cons.mp hq with h1 | h2
          · rw [h1]; exact le_of_lt hlt
          · exact hmin q h2
      · refine ⟨a, ?_, List.mem_cons_self a rest, ?_⟩
        · simp only [lruPick, hp]
          rw [if_neg hlt]
        · intro q hq
          rcases List.mem_cons.mp hq with h1 | h2
          · rw [h1]
          · exact le_trans (not_lt.mp hlt) (hmin q h2)

/-- A concrete one-entry cache whose entry expires at time 5. -/
def cacheC4 : Cache ℕ :=
  { store := [("k", { value := 42, createdAt := 0, lastAccessed := 0
                    , expiresAt := 5, hits := 0 })]
  , maxSize := 1000, defaultTTL := 300000 }

lemma mapGet_cacheC4 :
    mapGet cacheC4.store "k" =
      some { value := 42, createdAt := 0, lastAccessed := 0, expiresAt := 5, hits := 0 } := by
  simp [cacheC4, mapGet, List.find?_cons]

/-- C4 counterexample: the cache entry expiring at time 5, queried exactly
at time 5, still serves the value — `Cache.get` only treats
`now > expiresAt` as expired, so at the expiry instant the entry is visible,
refuting "visible only while current time is strictly less than expiry /
a get at or after the expiry time behaves as a miss". -/
theorem cache_get_at_expiry_counterexample :
    (Cache.get cacheC4 5 "k").1 = some 42 ∧ ¬ ((5 : ℚ) < 5) := by
  constructor
  · simp only [Cache.get, mapGet_cacheC4]
    norm_num
  · norm_num

/-- C4 (amended): a stored entry is visible via `get` exactly while
`now ≤ expiresAt`; a `get` strictly after the expiry time behaves
identically to a miss (returns absent), regardless of whether the stale
entry is still physically stored; an absent key is always a miss. -/
theorem cache_get_visibility {α : Type} (c : Cache α) (now : ℚ) (k : String) :
    (∀ e, mapGet c.store k = some e →
      (now ≤ e.expiresAt → (Cache.get c now k).1 = some e.value) ∧
      (e.expiresAt < now → (Cache.get c now k).1 = none)) ∧
    (mapGet c.store k = none → (Cache.get c now k).1 = none) := by
  constructor
  · intro e he
    constructor
    · intro hle
      simp only [Cache.get, he]
      rw [if_neg (not_lt.mpr hle)]
    · intro hlt
      simp only [Cache.get, he]
      rw [if_pos hlt]
  · intro he
    simp only [Cache.get, he]

/-- C4 witness: for the concrete cache expiring at 5, a get at time 3
returns the value and a get at time 7 misses. -/
theorem cache_get_visibility_witness :
    (Cache.get cacheC4 3 "k").1 = some 42 ∧ (Cache.get cacheC4 7 "k").1 = none := by
  constructor
  · exact ((cache_get_visibility cacheC4 3 "k").1 _ mapGet_cacheC4).1 (by norm_num)
  · exact ((cache_get_visibility cacheC4 7 "k").1 _ mapGet_cacheC4).2 (by norm_num)

/-- A full one-slot cache whose only (hence least-recently-accessed) entry
is keyed by the empty string. -/
def cacheC5ce : Cache ℕ :=
  { store := [("", { value := 7, createdAt := 0, lastAccessed := 0
                   , expiresAt := 100, hits := 0 })]
  , maxSize := 1, defaultTTL := 1000 }

/-- C5 counterexample: the cache is at capacity (one stored entry, maximum
size one) and the key `"x"` is absent, yet `set` grows the store to two
entries — exceeding the maximum — because `_evictLRU`'s `if (oldestKey)`
string-truthiness guard never deletes the empty-string-keyed LRU entry.
This refutes "evicts exactly the least-recently-accessed entry ... so the
stored size never exceeds the maximum" as stated for every cache. -/
theorem cache_set_empty_key_counterexample :
    cacheC5ce.store.length = cacheC5ce.maxSize ∧
    cacheC5ce.maxSize = 1 ∧
    mapGet cacheC5ce.store "x" = none ∧
    (Cache.set cacheC5ce 0 "x" 9 none).store.length = 2 := by
  refine ⟨rfl, rfl, ?_, ?_⟩
  · simp [cacheC5ce, mapGet, List.find?_cons]
  · simp [Cache.set, cacheC5ce, evictLRU, lruPick, mapSet, mapGet, List.find?_cons]

/-- C5 (amended): on a cache at capacity — provided the maximum is positive
and no stored key is the empty string, the states excluded by the
counterexample above — `set` of an absent key first deletes an entry whose
last-access time is minimal among all stored entries and then inserts,
keeping the stored size at the maximum; `set` of a present key replaces it
in place with no eviction and unchanged size. -/
theorem cache_set_capacity_spec {α : Type} (c : Cache α) (now : ℚ) (k : String)
    (v : α) (ttl : Option ℚ) :
    (c.store.length = c.maxSize → 0 < c.maxSize → (∀ p ∈ c.store, p.1 ≠ "") →
      mapGet c.store k = none →
      ∃ p, p ∈ c.store ∧ (∀ q ∈ c.store, p.2.lastAccessed ≤ q.2.lastAccessed) ∧
        (Cache.set c now k v ttl).store =
          mapSet (mapDelete c.store p.1) k
            { value := v, createdAt := now, lastAccessed := now
            , expiresAt := now + jsOrTTL ttl c.defaultTTL, hits := 0 } ∧
        (Cache.set c now k v ttl).store.length = c.maxSize) ∧
    (mapGet c.store k ≠ none →
      (Cache.set c now k v ttl).store =
        mapSet c.store k
          { value := v, createdAt := now, lastAccessed := now
          , expiresAt := now + jsOrTTL ttl c.defaultTTL, hits := 0 } ∧
      (Cache.set c now k v ttl).store.length = c.store.length) := by
  constructor
  · intro hfull hpos hne habs
    have hnonempty : c.store ≠ [] := by
      intro hnil
      rw [hnil] at hfull
      simp at hfull
      omega
    obtain ⟨p, hp, hmem, hmin⟩ := lruPick_spec c.store hnonempty
    have hevict : evictLRU c.store = mapDelete c.store p.1 := by
      simp only [evictLRU, hp]
      rw [if_neg (hne p hmem)]
    have hcond : (decide (c.maxSize ≤ c.store.length) &&
        (mapGet c.store k).isNone) = true := by
      rw [habs, hfull]
      simp
    refine ⟨p, hmem, hmin, ?_, ?_⟩
    · rw [Cache.set]
      simp only [hcond, if_true, hevict]
    · rw [Cache.set]
      simp only [hcond, if_true, hevict]
      rw [length_mapSet_of_none _ _ _ (mapGet_mapDelete_none p.1 habs),
        length_mapDelete c.store p.1 (mapGet_ne_none_of_mem hmem), hfull]
  · intro hpres
    have hcond : (decide (c.maxSize ≤ c.store.length) &&
        (mapGet c.store k).isNone) = false := by
      cases hg : mapGet c.store k with
      | none => exact absurd hg hpres
      | some e => simp [hg]
    constructor
    · rw [Cache.set]
      simp only [hcond, if_false, Bool.false_eq_true]
    · rw [Cache.set]
      simp only [hcond, if_false, Bool.false_eq_true]
      exact length_mapSet_of_some _ _ _ hpres

/-- A concrete two-entry cache at capacity 2 ("a" accessed more recently
than "b"). -/
def cacheC5 : Cache ℕ :=
  { store := [("a", { value := 1, createdAt := 0, lastAccessed := 10
                    , expiresAt := 100, hits := 0 }),
              ("b", { value := 2, createdAt := 0, lastAccessed := 5
                    , expiresAt := 100, hits := 0 })]
  , maxSize := 2, defaultTTL := 1000 }

/-- C5 witness: setting a fresh key on the full two-entry cache keeps the
size at 2, and setting an existing key keeps the size at 2 as well. -/
theorem cache_set_capacity_spec_witness :
    ((Cache.set cacheC5 20 "c" 99 none).store.length = 2) ∧
    ((Cache.set cacheC5 20 "a" 99 none).store.length = 2) := by
  constructor
  · obtain ⟨p, -, -, -, hlen⟩ :=
      (cache_set_capacity_spec cacheC5 20 "c" 99 none).1 rfl (by norm_num [cacheC5])
        (by
          intro p hp
          simp only [cacheC5, List.mem_cons, List.mem_singleton] at hp
          rcases hp with h1 | h2 | h3
          · rw [h1]; simp
          · rw [h2]; simp
          · simp at h3)
        (by simp [cacheC5, mapGet, List.find?_cons])
    exact hlen
  · exact ((cache_set_capacity_spec cacheC5 20 "a" 99 none).2
      (by simp [cacheC5, mapGet, List.find?_cons])).2

lemma mapGet_mapSet_self {α : Type} (store : List (String × CacheEntry α))
    (k : String) (e : CacheEntry α) : mapGet (mapSet store k e) k = some e := by
  induction store with
  | nil => simp [mapSet, mapGet, List.find?_cons]
  | cons p rest ih =>
    rw [mapSet]
    by_cases hpk : p.1 == k
    · rw [if_pos hpk, mapGet_cons]
      simp
    · rw [if_neg hpk, mapGet_cons, if_neg hpk]
      exact ih

lemma cache_get_after_set {α : Type} (c : Cache α) (now : ℚ) (k : String) (v : α) :
    (Cache.get (Cache.set c now k v (some 300000)) now k).1 = some v := by
  have hset : (Cache.set c now k v (some 300000)).store =
      mapSet (if decide (c.maxSize ≤ c.store.length) && (mapGet c.store k).isNone then
        evictLRU c.store else c.store) k
        { value := v, createdAt := now, lastAccessed := now
        , expiresAt := now + jsOrTTL (some 300000) c.defaultTTL, hits := 0 } := rfl
  simp only [Cache.get, hset, mapGet_mapSet_self]
  rw [if_neg]
  simp only [jsOrTTL]
  norm_num

lemma tryProviders_log {α : Type} (sid : String) (ps : List (Provider α)) :
    ∀ last, ∃ m, (tryProviders sid ps last).2 = (ps.map Provider.name).take m := by
  induction ps with
  | nil => exact fun last => ⟨0, by simp [tryProviders]⟩
  | cons p rest ih =>
    intro last
    cases hf : p.fetch sid with
    | ok d => exact ⟨1, by simp [tryProviders, hf]⟩
    | error e =>
      obtain ⟨m, hm⟩ := ih (some e)
      exact ⟨m + 1, by simp [tryProviders, hf, hm]⟩

lemma tryProviders_ok {α : Type} (sid : String) (ps : List (Provider α)) :
    ∀ (last : Option String) (d : α) (nm : String),
      (tryProviders sid ps last).1 = .ok (d, nm) →
      ∃ (k : ℕ) (hk : k < ps.length),
        (ps.get ⟨k, hk⟩).fetch sid = .ok d ∧ nm = (ps.get ⟨k, hk⟩).name ∧
        (∀ j (hj : j < k), ∃ e, (ps.get ⟨j, lt_trans hj hk⟩).fetch sid = .error e) ∧
        (tryProviders sid ps last).2 = (ps.map Provider.name).take (k + 1) := by
  induction ps with
  | nil =>
    intro last d nm h
    simp [tryProviders] at h
  | cons p rest ih =>
    intro last d nm h
    cases hf : p.fetch sid with
    | ok d0 =>
      simp only [tryProviders, hf] at h
      obtain ⟨hd, hnm⟩ : d0 = d ∧ p.name = nm := by
        have := h
        simp at this
        exact ⟨this.1, this.2⟩
      refine ⟨0, by simp, ?_, ?_, ?_, ?_⟩
      · rw [show (p :: rest).get ⟨0, by simp⟩ = p from rfl, hf, hd]
      · rw [show (p :: rest).get ⟨0, by simp⟩ = p from rfl, hnm]
      · intro j hj
        omega
      · simp [tryProviders, hf]
    | error e =>
      simp only [tryProviders, hf] at h
      obtain ⟨k, hk, h1, h2, h3, h4⟩ := ih (some e) d nm h
      refine ⟨k + 1, by simpa using Nat.succ_lt_succ hk, ?_, ?_, ?_, ?_⟩
      · rw [show (p :: rest).get ⟨k + 1, by simpa using Nat.succ_lt_succ hk⟩ =
          rest.get ⟨k, hk⟩ from rfl]
        exact h1
      · rw [show (p :: rest).get ⟨k + 1, by simpa using Nat.succ_lt_succ hk⟩ =
          rest.get ⟨k, hk⟩ from rfl]
        exact h2
      · intro j hj
        cases j with
        | zero => exact ⟨e, hf⟩
        | succ j' =>
          obtain ⟨e', he'⟩ := h3 j' (by omega)
          exact ⟨e', he'⟩
      · simp only [tryProviders, hf, List.map_cons, List.take_succ_cons]
        rw [h4]

lemma tryProviders_allfail {α : Type} (sid : String) (ps' : List (Provider α))
    (pl : Provider α) (e : String)
    (hall : ∀ p ∈ ps', ∃ e', p.fetch sid = .error e')
    (hl : pl.fetch sid = .error e) :
    ∀ last, (tryProviders sid (ps' ++ [pl]) last).1 = .error e := by
  induction ps' with
  | nil =>
    intro last
    simp [tryProviders, hl]
  | cons p rest ih =>
    intro last
    obtain ⟨e0, he0⟩ := hall p (List.mem_cons_self p rest)
    simp only [List.cons_append, tryProviders, he0]
    exact ih (fun q hq => hall q (List.mem_cons_of_mem p hq)) (some e0)

/-- C3: for a station with no live cache entry, the coordinator asks the
configured providers in priority order, each at most once (the ask log is a
prefix of the provider list); the first success is returned tagged with that
provider's name and written to the cache (a get at the same instant serves
it); if every provider fails the failure of the last provider propagates.
On a live cache hit the cached value is returned with an empty ask log. -/
theorem getCurrentObservation_spec {α : Type} (ps : List (Provider α))
    (c : Cache (TaggedResult α)) (now : ℚ) (sid : String) :
    (∀ v c1, Cache.get c now ("current:" ++ sid) = (some v, c1) →
       getCurrentObservation ps c now sid = (.ok v, c1, [])) ∧
    ((Cache.get c now ("current:" ++ sid)).1 = none →
       (∃ m, (getCurrentObservation ps c now sid).2.2 = (ps.map Provider.name).take m) ∧
       (∀ d, (getCurrentObservation ps c now sid).1 = .ok d →
          d.cached = false ∧ d.fetchedAt = now ∧
          (∃ (k : ℕ) (hk : k < ps.length),
            (ps.get ⟨k, hk⟩).fetch sid = .ok d.data ∧
            d.source = (ps.get ⟨k, hk⟩).name ∧
            (∀ j (hj : j < k), ∃ e, (ps.get ⟨j, lt_trans hj hk⟩).fetch sid = .error e) ∧
            (getCurrentObservation ps c now sid).2.2 =
              (ps.map Provider.name).take (k + 1)) ∧
          (Cache.get (getCurrentObservation ps c now sid).2.1 now
            ("current:" ++ sid)).1 = some d) ∧
       (∀ ps' pl e, ps = ps' ++ [pl] →
          (∀ p ∈ ps', ∃ e', p.fetch sid = .error e') → pl.fetch sid = .error e →
          (getCurrentObservation ps c now sid).1 = .error e)) := by
  constructor
  · intro v c1 hget
    simp only [getCurrentObservation, hget]
  · intro hmiss
    rcases hget : Cache.get c now ("current:" ++ sid) with ⟨o1, c1⟩
    rw [hget] at hmiss
    simp only at hmiss
    subst hmiss
    have hout : getCurrentObservation ps c now sid =
        (match tryProviders sid ps none with
         | (.ok (d, nm), log) =>
           (.ok { data := d, source := nm, cached := false, fetchedAt := now },
            Cache.set c1 now ("current:" ++ sid)
              { data := d, source := nm, cached := false, fetchedAt := now }
              (some 300000), log)
         | (.error e, log) => (.error e, c1, log)) := by
      simp only [getCurrentObservation, hget]
    rcases htp : tryProviders sid ps none with ⟨r, log⟩
    refine ⟨?_, ?_, ?_⟩
    · obtain ⟨m, hm⟩ := tryProviders_log sid ps none
      rw [htp] at hm
      simp only at hm
      refine ⟨m, ?_⟩
      rw [hout, htp]
      cases r with
      | ok pr =>
        obtain ⟨d, nm⟩ := pr
        simpa using hm
      | error e => simpa using hm
    · intro d hd
      rw [hout, htp] at hd
      cases r with
      | error e => simp at hd
      | ok pr =>
        obtain ⟨d0, nm⟩ := pr
        simp only at hd
        have hd' : ({ data := d0, source := nm, cached := false, fetchedAt := now } :
            TaggedResult α) = d := by
          injection hd
        obtain ⟨k, hk, h1, h2, h3, h4⟩ :=
          tryProviders_ok sid ps none d0 nm (by rw [htp])
        refine ⟨by rw [← hd'], by rw [← hd'], ⟨k, hk, ?_, ?_, h3, ?_⟩, ?_⟩
        · rw [← hd']
          exact h1
        · rw [← hd']
          exact h2
        · rw [hout, htp]
          simp only
          rw [htp] at h4
          simpa using h4
        · rw [hout, htp]
          simp only
          rw [← hd']
          exact cache_get_after_set c1 now ("current:" ++ sid) _
    · intro ps' pl e hps hall hl
      have := tryProviders_allfail sid ps' pl e hall hl none
      rw [← hps, htp] at this
      simp only at this
      rw [hout, htp]
      cases r with
      | ok pr =>
        obtain ⟨d0, nm⟩ := pr
        simp at this
      | error e0 => simpa using this

/-- C3 witness: with an empty cache, a primary that always fails and a
backup that always succeeds, the coordinator returns the backup's payload
tagged `"mesowest"` and its ask log is `["synoptic", "mesowest"]` — a prefix
of the provider-name list, so each provider was asked once, in order. -/
theorem getCurrentObservation_spec_witness :
    ∃ m, (getCurrentObservation
      [{ name := "synoptic", fetch := fun _ => .error "Station not found" },
       { name := "mesowest", fetch := fun _ => .ok (27 : ℚ) }]
      { store := [], maxSize := 1000, defaultTTL := 300000 } 0 "KABC1").2.2 =
      (["synoptic", "mesowest"] : List String).take m := by
  obtain ⟨hm, -, -⟩ :=
    (getCurrentObservation_spec
      [{ name := "synoptic", fetch := fun _ => .error "Station not found" },
       { name := "mesowest", fetch := fun _ => .ok (27 : ℚ) }]
      { store := [], maxSize := 1000, defaultTTL := 300000 } 0 "KABC1").2
      (by simp [Cache.get, mapGet, List.find?])
  simpa using hm

lemma isRedFlagConditions_strict_eq (h w : ℚ) :
    isRedFlagConditions (some h) (some w) true = decide (h < 15 ∧ w > 25) := rfl

/-- C8 counterexample: at temperature 32 °F, humidity 18 %, wind 22 mph and
fuel moisture 5000/71 ≈ 70.4 %, none of the claim's three overrides holds
(humidity ≥ 10, fuel moisture ≥ 5, strict red-flag test false) and the
Chandler index is 16 — banding "Low" — yet the code returns "Extreme",
because it calls `isRedFlagConditions` in its relaxed default mode
(`18 < 20 ∧ 22 > 20` fires). -/
theorem calculateFireDangerClass_c8_counterexample :
    calculateFireDangerClass 32 18 22 (some (5000/71)) = "Extreme" ∧
    ¬ ((18 : ℚ) < 10) ∧ ¬ ((5000/71 : ℚ) < 5) ∧
    isRedFlagConditions (some 18) (some 22) true = false ∧
    calculateChandlerBurningIndex (some 32) (some 18) (some (5000/71)) = some 16 := by
  have hb : isRedFlagConditions (some (18 : ℚ)) (some (22 : ℚ)) false = true := by
    rw [isRedFlagConditions_relaxed_eq, decide_eq_true_eq]
    norm_num
  refine ⟨?_, by norm_num, by norm_num, ?_, ?_⟩
  · simp only [calculateFireDangerClass, truthyNum]
    rw [if_neg (by norm_num), if_pos hb]
  · rw [isRedFlagConditions_strict_eq, decide_eq_false_iff_not]
    norm_num
  · have hexp : (-0.0142 : ℝ) * (((5000/71 : ℚ)) : ℝ) = ((-1 : ℤ) : ℝ) := by
      push_cast
      norm_num
    simp only [calculateChandlerBurningIndex, jsRoundR]
    rw [hexp, Real.rpow_intCast, zpow_neg_one]
    have hval : ((110 - 1.373 * (((18 : ℚ)) : ℝ)) -
        0.54 * (10.20 - ((((32 : ℚ)) : ℝ) - 32) * 5 / 9)) * (124 * (10 : ℝ)⁻¹) / 60 + 1/2 =
        10192472/600000 := by
      push_cast
      norm_num
    rw [hval]
    norm_num [Int.floor_eq_iff]

/-- C8 (amended): the fire danger classification returns "Extreme" whenever
humidity < 10, or fuel moisture is truthy (non-null, nonzero) and < 5, or
the *relaxed* red-flag test (`(h < 15 ∧ w > 25) ∨ (h < 20 ∧ w > 20)`)
holds; when none of these overrides holds, the tier is exactly the Chandler
banding of `calculateChandlerBurningIndex`. -/
theorem calculateFireDangerClass_spec (t h w : ℚ) (fm : Option ℚ) :
    ((h < 10 ∨ (truthyNum fm = true ∧ fm.getD 0 < 5) ∨
        isRedFlagConditions (some h) (some w) false = true) →
      calculateFireDangerClass t h w fm = "Extreme") ∧
    (¬ (h < 10) → ¬ (truthyNum fm = true ∧ fm.getD 0 < 5) →
      isRedFlagConditions (some h) (some w) false = false →
      calculateFireDangerClass t h w fm =
        chandlerBand (calculateChandlerBurningIndex (some t) (some h) fm)) := by
  constructor
  · intro hover
    rcases hover with h1 | h2 | h3
    · simp only [calculateFireDangerClass]
      rw [if_pos (Or.inl h1)]
    · simp only [calculateFireDangerClass]
      rw [if_pos (Or.inr h2)]
    · simp only [calculateFireDangerClass]
      by_cases hfirst : h < 10 ∨ (truthyNum fm = true ∧ fm.getD 0 < 5)
      · rw [if_pos hfirst]
      · rw [if_neg hfirst, if_pos h3]
  · intro h1 h2 h3
    simp only [calculateFireDangerClass]
    rw [if_neg (by rintro (ha | hb); exacts [h1 ha, h2 hb]), if_neg (by rw [h3]; simp)]

/-- C8 witness: at humidity 5 % the first override fires and the class is
"Extreme". -/
theorem calculateFireDangerClass_spec_witness :
    calculateFireDangerClass 70 5 0 none = "Extreme" :=
  (calculateFireDangerClass_spec 70 5 0 none).1 (Or.inl (by norm_num))

/-- C9: `calculateFosbergFFWI` is not non-negative on all non-null inputs —
at temperature 100 °F, humidity 100 % and wind 10 mph the equilibrium
moisture content goes negative, the damping coefficient follows, and the
rounded index is a negative integer (≈ −1), contradicting the claim, the
spec and the function's own doc comment ("FFWI value (0-100+)"). -/
theorem calculateFosbergFFWI_negative_at_extreme :
    ∃ z : ℤ, calculateFosbergFFWI (some 100) (some 100) (some 10) = some z ∧ z < 0 := by
  have hclamp : (max 1 (min 100 (100 : ℚ))) = (100 : ℚ) := by norm_num
  have hw : (max 0 (10 : ℚ)) = (10 : ℚ) := by norm_num
  simp only [calculateFosbergFFWI, hclamp, hw]
  refine ⟨_, rfl, ?_⟩
  have hexpA : Real.exp 0.1 ≤ 10/9 := by
    have h1 : (0.9 : ℝ) ≤ Real.exp (-0.1) := by
      have := Real.add_one_le_exp (-0.1 : ℝ)
      linarith
    have h2 : Real.exp 0.1 = (Real.exp (-0.1))⁻¹ := by
      rw [Real.exp_neg, inv_inv]
    rw [h2]
    calc (Real.exp (-0.1))⁻¹ ≤ (0.9 : ℝ)⁻¹ := inv_le_inv_of_le (by norm_num) h1
      _ = 10/9 := by norm_num
  have hexpB : Real.exp (-0.115) ≤ 1/1.115 := by
    have h1 : (1.115 : ℝ) ≤ Real.exp 0.115 := by
      have := Real.add_one_le_exp (0.115 : ℝ)
      linarith
    rw [Real.exp_neg]
    calc (Real.exp 0.115)⁻¹ ≤ (1.115 : ℝ)⁻¹ := inv_le_inv_of_le (by norm_num) h1
      _ = 1/1.115 := by norm_num
  have hemc : calculateEquilibriumMoistureContent (((100 : ℚ)) : ℝ) (((100 : ℚ)) : ℝ) ≤
      -(0.52 : ℝ) := by
    have hrh : (((100 : ℚ)) : ℝ) / 100 = 1 := by push_cast; norm_num
    simp only [calculateEquilibriumMoistureContent, hrh]
    rw [if_pos (by norm_num : (0.1 : ℝ) ≤ 1 ∧ (1 : ℝ) ≤ 1.0)]
    rw [Real.one_rpow]
    have e1 : (0.1 : ℝ) * 1 = 0.1 := by norm_num
    have e2 : (-0.115 : ℝ) * 1 = -0.115 := by norm_num
    rw [e1, e2]
    push_cast
    nlinarith [hexpA, hexpB, Real.exp_pos (0.1 : ℝ), Real.exp_pos (-0.115 : ℝ)]
  have hemc10 : calculateEquilibriumMoistureContent (((100 : ℚ)) : ℝ) (((100 : ℚ)) : ℝ) ≤
      (10 : ℝ) := le_trans hemc (by norm_num)
  rw [if_pos hemc10]
  have heta : 0.03229 + 0.281073 * calculateEquilibriumMoistureContent (((100 : ℚ)) : ℝ)
      (((100 : ℚ)) : ℝ) - 0.000578 * calculateEquilibriumMoistureContent (((100 : ℚ)) : ℝ)
      (((100 : ℚ)) : ℝ) * (((100 : ℚ)) : ℝ) ≤ -(0.08 : ℝ) := by
    push_cast
    nlinarith [hemc]
  have hS : (10 : ℝ) ≤ Real.sqrt (1 + (((10 : ℚ)) : ℝ) * (((10 : ℚ)) : ℝ)) := by
    have h1 : (1 + (((10 : ℚ)) : ℝ) * (((10 : ℚ)) : ℝ)) = 101 := by push_cast; norm_num
    rw [h1]
    nlinarith [Real.sq_sqrt (show (0 : ℝ) ≤ 101 by norm_num), Real.sqrt_nonneg (101 : ℝ)]
  have hfin : (0.03229 + 0.281073 * calculateEquilibriumMoistureContent (((100 : ℚ)) : ℝ)
      (((100 : ℚ)) : ℝ) - 0.000578 * calculateEquilibriumMoistureContent (((100 : ℚ)) : ℝ)
      (((100 : ℚ)) : ℝ) * (((100 : ℚ)) : ℝ)) *
      Real.sqrt (1 + (((10 : ℚ)) : ℝ) * (((10 : ℚ)) : ℝ)) ≤ -(0.8 : ℝ) := by
    calc (0.03229 + 0.281073 * calculateEquilibriumMoistureContent (((100 : ℚ)) : ℝ)
        (((100 : ℚ)) : ℝ) - 0.000578 * calculateEquilibriumMoistureContent (((100 : ℚ)) : ℝ)
        (((100 : ℚ)) : ℝ) * (((100 : ℚ)) : ℝ)) *
        Real.sqrt (1 + (((10 : ℚ)) : ℝ) * (((10 : ℚ)) : ℝ)) ≤
        (0.03229 + 0.281073 * calculateEquilibriumMoistureContent (((100 : ℚ)) : ℝ)
        (((100 : ℚ)) : ℝ) - 0.000578 * calculateEquilibriumMoistureContent (((100 : ℚ)) : ℝ)
        (((100 : ℚ)) : ℝ) * (((100 : ℚ)) : ℝ)) * 10 :=
          mul_le_mul_of_nonpos_left hS (le_trans heta (by norm_num))
      _ ≤ -(0.08 : ℝ) * 10 := mul_le_mul_of_nonneg_right heta (by norm_num)
      _ = -(0.8 : ℝ) := by norm_num
  simp only [jsRoundR]
  refine Int.floor_lt.mpr ?_
  push_cast
  linarith [hfin]

end RawsMcp
